import Mathlib

/- Shallow embedding of the Streamlit dashboard script
   Visualize_Cardiff_Weather_Data.py.  The script is glue code over the
   ladybug weather library: it reads widget values, calls library
   functions and assembles chart figures.  Library types and operations
   are abstract parameters, bundled in the structure Lib; chart figures
   are modelled as records of the arguments the script passes to the
   library plotting calls, so equality of figures is equality of those
   call records. -/

namespace CardiffWeather

/- Keys of the colorsets dictionary, lines 44-72 of the source. -/
def colorsetNames : List String :=
  ["Original", "Nuanced", "Annual_comfort", "Benefit", "Benefit_harm",
   "Black_to_white", "Blue_green_red", "Cloud_cover", "Cold_sensation",
   "Ecotect", "Energy_balance", "Energy_balance_storage", "Glare_study",
   "Harm", "Heat_sensation", "Multi_colored", "Multicolored_2",
   "Multicolored_3", "Openstudio_palette", "Peak_load_balance",
   "Shade_benefit", "Shade_benefit_harm", "Shade_harm", "Shadow_study",
   "Therm", "Thermal_comfort", "View_study"]

/- AnalysisPeriod(st_month, st_day, st_hour, end_month, end_day, end_hour),
   the argument record of the ladybug AnalysisPeriod constructor. -/
structure AnalysisPeriod where
  st_month : ℤ
  st_day : ℤ
  st_hour : ℤ
  end_month : ℤ
  end_day : ℤ
  end_hour : ℤ

/- Outcome of HourlyContinuousCollection.filter_by_conditional_statement:
   either a filtered collection, or one of the two exceptions the script
   catches (AssertionError when no values match, ValueError when the
   statement is invalid). -/
inductive CondResult (Coll : Type) where
  | ok : Coll → CondResult Coll
  | assertionError : CondResult Coll
  | valueError : CondResult Coll

/- LegendParameters(colors=...) with optional min / max set afterwards. -/
structure LegendParameters (Color : Type) where
  colors : List Color
  min : Option ℚ
  max : Option ℚ

/- Members of ladybug_charts.utils.Strategy used by the script. -/
inductive Strategy where
  | comfort
  | evaporative_cooling
  | mas_night_ventilation
  | occupant_use_of_fans
  | capture_internal_heat
  | passive_solar_heating

/- First argument of compute_function_aligned in get_degree_days_figure. -/
inductive DegreeFn where
  | heating_degree_time
  | cooling_degree_time

/- Data-type argument of compute_function_aligned. -/
inductive DegreeDataType where
  | heatingDegreeTime
  | coolingDegreeTime

/- Abstract interface of the external library operations the script uses.
   Coll stands for HourlyContinuousCollection, MColl for the monthly
   collections produced by average_monthly / total_monthly.  colorsets is
   the dictionary of lines 44-72 viewed as a map from its keys (the names
   in colorsetNames) to the library color lists; pyFloat is the Python
   float() parser (none models ValueError); data_type_str models
   str(c.header.data_type) and data_type_name models
   c.header.data_type.name; fieldName i models
   EPWFields._fields[i]['name'].name. -/
structure Lib (Color Coll MColl : Type) where
  colorsets : String → List Color
  filter_by_analysis_period : Coll → AnalysisPeriod → Coll
  filter_by_conditional_statement : Coll → String → CondResult Coll
  pyFloat : String → Option ℚ
  data_type_str : Coll → String
  data_type_name : Coll → String
  average_daily : Coll → Coll
  average_monthly : Coll → MColl
  total_monthly : Coll → MColl
  compute_function_aligned : DegreeFn → Coll → ℤ → DegreeDataType → String → Coll
  convert_to_unit : Coll → String → Coll
  fieldName : ℕ → String

/- The EPW object: data series accessors and location metadata. -/
structure EPWData (Coll : Type) where
  get_data_by_field : ℕ → Coll
  dry_bulb_temperature : Coll
  relative_humidity : Coll
  wind_direction : Coll
  wind_speed : Coll
  direct_normal_radiation : Coll
  city : String
  country : String

/- Figure produced by HourlyPlot(...).plot(title, show_title). -/
structure HourlyPlotFig (Color Coll : Type) where
  data_collection : Coll
  legend_parameters : LegendParameters Color
  title : String
  show_title : Bool

/- Value returned by get_hourly_data_figure: a figure, or one of the
   plain error strings returned on invalid input. -/
inductive HourlyFigureResult (Color Coll : Type) where
  | errorString : String → HourlyFigureResult Color Coll
  | figure : HourlyPlotFig Color Coll → HourlyFigureResult Color Coll

/- Figure produced by data.line_chart(color, title, show_title). -/
structure LineChartFig (Color Coll : Type) where
  data : Coll
  color : Color
  title : String
  show_title : Bool

/- Figure produced by data.bar_chart(color, title, show_title). -/
structure BarChartFig (Color Coll : Type) where
  data : Coll
  color : Color
  title : String
  show_title : Bool

/- Figure produced by epw.diurnal_average_chart(show_title, colors). -/
structure DiurnalEpwFig (Color Coll : Type) where
  epw : EPWData Coll
  colors : List Color
  show_title : Bool

/- Figure produced by data.diurnal_average_chart(title, show_title, color). -/
structure DiurnalHourlyFig (Color Coll : Type) where
  data : Coll
  title : String
  show_title : Bool
  color : Color

/- Figure produced by MonthlyChart(data, legend_parameters, stack).plot(). -/
structure MonthlyChartFig (Color MColl : Type) where
  data : List MColl
  legend_parameters : LegendParameters Color
  stack : Bool

/- Figure produced by WindRose(...).plot(title, show_title) with the
   legend parameters assigned beforehand. -/
structure WindroseFig (Color Coll : Type) where
  wind_direction : Coll
  wind_speed : Coll
  legend_parameters : LegendParameters Color
  title : String
  show_title : Bool

/- PsychrometricChart(dry_bulb_temperature, relative_humidity,
   legend_parameters). -/
structure PsyChart (Color Coll : Type) where
  temperature : Coll
  relative_humidity : Coll
  legend_parameters : LegendParameters Color

/- PolygonPMV(lb_psy). -/
structure PolygonPMVRec (Color Coll : Type) where
  chart : PsyChart Color Coll

/- The four shapes of lb_psy.plot(...) call made by get_psy_chart_figure. -/
inductive PsyPlotCall (Color Coll : Type) where
  | data_polygons : Option Coll → PolygonPMVRec Color Coll → List Strategy → Coll → PsyPlotCall Color Coll
  | data_only : Option Coll → PsyPlotCall Color Coll
  | polygons : PolygonPMVRec Color Coll → List Strategy → Coll → PsyPlotCall Color Coll
  | plain : PsyPlotCall Color Coll

/- Figure returned from the psychrometric tab: the chart object and the
   plot call made on it. -/
structure PsyFig (Color Coll : Type) where
  chart : PsyChart Color Coll
  call : PsyPlotCall Color Coll

variable {Color Coll MColl : Type}

/- get_colors (lines 122-128): with switch, a reversed copy of the
   selected colorset, otherwise the colorset itself. -/
def get_colors (colorsets : String → List Color) (switch : Bool) (global_colorset : String) : List Color :=
  if switch then (colorsets global_colorset).reverse else colorsets global_colorset

/- get_fields (lines 32-34): dictionary of EPW variable name to field
   number, for field numbers 6 to 33. -/
def get_fields (lib : Lib Color Coll MColl) : List (String × ℕ) :=
  (List.range' 6 28).map (fun i => (lib.fieldName i, i))

/- Python dict lookup on an association list (first matching key). -/
def dictGet (d : List (String × ℕ)) (k : String) : Option ℕ :=
  (d.find? (fun p => p.1 == k)).map Prod.snd

/- epw_path (line 77): the constant path of the bundled EPW file. -/
def epw_path : String := "EPW File/GBR_WAL_Cardiff.Wea.Ctr.037170_TMYx.epw"

/- get_hourly_data_figure (lines 138-172).  The analysis-period filter is
   applied first; a non-empty conditional statement refilters the
   original data (replacing the period-filtered collection) and its two
   caught exceptions return fixed strings; non-empty Min / Max strings
   are parsed with float() and a parse failure returns a fixed string;
   a parsed bound is assigned to the legend parameters only when it is
   truthy, i.e. non-zero. -/
def get_hourly_data_figure (lib : Lib Color Coll MColl) (data : Coll)
    (global_colorset : String) (conditional_statement : String)
    (min max : String)
    (start_month start_day start_hour end_month end_day end_hour : ℤ)
    (switch : Bool) : HourlyFigureResult Color Coll :=
  let lb_ap : AnalysisPeriod := ⟨start_month, start_day, start_hour, end_month, end_day, end_hour⟩
  let filtered_data := lib.filter_by_analysis_period data lb_ap
  let condStep : Except String Coll :=
    if conditional_statement = "" then Except.ok filtered_data
    else
      match lib.filter_by_conditional_statement data conditional_statement with
      | CondResult.ok fd => Except.ok fd
      | CondResult.assertionError => Except.error "No values found for that conditonal statement"
      | CondResult.valueError => Except.error "Invalid conditonal statement"
  match condStep with
  | Except.error msg => HourlyFigureResult.errorString msg
  | Except.ok fd =>
    let minStep : Except String (Option ℚ) :=
      if min = "" then Except.ok none
      else
        match lib.pyFloat min with
        | some v => Except.ok (some v)
        | none => Except.error "Invalid minimum value"
    match minStep with
    | Except.error msg => HourlyFigureResult.errorString msg
    | Except.ok minv =>
      let maxStep : Except String (Option ℚ) :=
        if max = "" then Except.ok none
        else
          match lib.pyFloat max with
          | some v => Except.ok (some v)
          | none => Except.error "Invalid maximum value"
      match maxStep with
      | Except.error msg => HourlyFigureResult.errorString msg
      | Except.ok maxv =>
        let colors := get_colors lib.colorsets switch global_colorset
        let lb_lp : LegendParameters Color :=
          ⟨colors,
           match minv with
           | some v => if v = 0 then none else some v
           | none => none,
           match maxv with
           | some v => if v = 0 then none else some v
           | none => none⟩
        HourlyFigureResult.figure ⟨fd, lb_lp, lib.data_type_str fd, true⟩

/- Line 212 of the script: hourly_data_figure.update_layout(...) is
   called unconditionally on the value returned by
   get_hourly_data_figure.  A string has no update_layout attribute, so
   on an error string the call raises AttributeError (modelled as none)
   and the string is never rendered; on a figure the layout is applied. -/
def hourly_figure_update_layout (v : HourlyFigureResult Color Coll) :
    Option (HourlyPlotFig Color Coll) :=
  match v with
  | HourlyFigureResult.errorString _ => none
  | HourlyFigureResult.figure f => some f

/- get_hourly_line_chart_figure (lines 226-228): colors[9] raises
   IndexError on a short colorset (modelled as none). -/
def get_hourly_line_chart_figure (lib : Lib Color Coll MColl) (data : Coll)
    (switch : Bool) (global_colorset : String) (selection : String) :
    Option (LineChartFig Color Coll) :=
  let colors := get_colors lib.colorsets switch global_colorset
  (colors.get? 9).map (fun c => ⟨data, c, selection, true⟩)

/- get_daily_chart_figure (lines 242-245). -/
def get_daily_chart_figure (lib : Lib Color Coll MColl) (data : Coll)
    (switch : Bool) (global_colorset : String) :
    Option (BarChartFig Color Coll) :=
  let colors := get_colors lib.colorsets switch global_colorset
  let d := lib.average_daily data
  (colors.get? 9).map (fun c => ⟨d, c, lib.data_type_name d, true⟩)

/- get_diurnal_average_chart_figure (lines 258-260). -/
def get_diurnal_average_chart_figure (lib : Lib Color Coll MColl)
    (epw : EPWData Coll) (global_colorset : String) (switch : Bool) :
    DiurnalEpwFig Color Coll :=
  ⟨epw, get_colors lib.colorsets switch global_colorset, true⟩

/- get_hourly_diurnal_average_chart_figure (lines 278-280). -/
def get_hourly_diurnal_average_chart_figure (lib : Lib Color Coll MColl)
    (data : Coll) (switch : Bool) (global_colorset : String) :
    Option (DiurnalHourlyFig Color Coll) :=
  let colors := get_colors lib.colorsets switch global_colorset
  (colors.get? 9).map (fun c => ⟨data, lib.data_type_name data, true, c⟩)

/- Loop body of get_bar_chart_figure (lines 337-344): iterate over the
   enumerated selection; for a selected index i look up the i-th key of
   the fields dict (IndexError, modelled as none, when out of range),
   fetch that variable and append its monthly average or total according
   to data_type; any other data_type appends nothing. -/
def bar_chart_data (lib : Lib Color Coll MColl) (fields : List (String × ℕ))
    (epw : EPWData Coll) (data_type : String) :
    List (ℕ × Bool) → Option (List MColl)
  | [] => some []
  | (i, item) :: rest =>
    if item then
      match (fields.map Prod.fst)[i]? with
      | none => none
      | some key =>
        match dictGet fields key with
        | none => none
        | some fnum =>
          let var := epw.get_data_by_field fnum
          if data_type = "Monthly Average" then
            (bar_chart_data lib fields epw data_type rest).map (lib.average_monthly var :: ·)
          else if data_type = "Monthly Total" then
            (bar_chart_data lib fields epw data_type rest).map (lib.total_monthly var :: ·)
          else bar_chart_data lib fields epw data_type rest
    else bar_chart_data lib fields epw data_type rest

/- get_bar_chart_figure (lines 334-348). -/
def get_bar_chart_figure (lib : Lib Color Coll MColl) (fields : List (String × ℕ))
    (epw : EPWData Coll) (selection : List Bool) (data_type : String)
    (switch stack : Bool) (global_colorset : String) :
    Option (MonthlyChartFig Color MColl) :=
  let colors := get_colors lib.colorsets switch global_colorset
  (bar_chart_data lib fields epw data_type selection.enum).map
    (fun data => ⟨data, ⟨colors, none, none⟩, stack⟩)

/- get_degree_days_figure (lines 371-381). -/
def get_degree_days_figure (lib : Lib Color Coll MColl) (data : Coll)
    (heatbase coolbase : ℤ) (stack switch : Bool) (global_colorset : String) :
    MonthlyChartFig Color MColl × Coll × Coll :=
  let hourly_heat := lib.convert_to_unit
    (lib.compute_function_aligned DegreeFn.heating_degree_time data heatbase
      DegreeDataType.heatingDegreeTime "degC-hours") "degC-days"
  let hourly_cool := lib.convert_to_unit
    (lib.compute_function_aligned DegreeFn.cooling_degree_time data coolbase
      DegreeDataType.coolingDegreeTime "degC-hours") "degC-days"
  let colors := get_colors lib.colorsets switch global_colorset
  let lb_lp : LegendParameters Color := ⟨colors, none, none⟩
  (⟨[lib.total_monthly hourly_cool, lib.total_monthly hourly_heat], lb_lp, stack⟩,
   hourly_heat, hourly_cool)

/- get_windrose_figure (lines 411-420).  The chart title is built from
   the global EPW object (gepw), not the epw parameter, exactly as in
   the source. -/
def get_windrose_figure (lib : Lib Color Coll MColl) (gepw : EPWData Coll)
    (start_month end_month start_day end_day start_hour end_hour : ℤ)
    (epw : EPWData Coll) (global_colorset : String) (switch : Bool) :
    WindroseFig Color Coll :=
  let colors := get_colors lib.colorsets switch global_colorset
  let lb_ap : AnalysisPeriod := ⟨start_month, start_day, start_hour, end_month, end_day, end_hour⟩
  let wind_dir := lib.filter_by_analysis_period epw.wind_direction lb_ap
  let wind_spd := lib.filter_by_analysis_period epw.wind_speed lb_ap
  let lb_lp : LegendParameters Color := ⟨colors, none, none⟩
  ⟨wind_dir, wind_spd, lb_lp, gepw.city ++ ", " ++ gepw.country, true⟩

/- Strategy list built by the if/elif chain of lines 460-473; none means
   no branch matched and the strategies variable stays unbound. -/
def psyStrategies (selected_strategy : String) : Option (List Strategy) :=
  if selected_strategy = "All" then
    some [Strategy.comfort, Strategy.evaporative_cooling, Strategy.mas_night_ventilation,
          Strategy.occupant_use_of_fans, Strategy.capture_internal_heat,
          Strategy.passive_solar_heating]
  else if selected_strategy = "Comfort" then some [Strategy.comfort]
  else if selected_strategy = "Evaporative Cooling" then some [Strategy.evaporative_cooling]
  else if selected_strategy = "Mass + Night Ventilation" then some [Strategy.mas_night_ventilation]
  else if selected_strategy = "Occupant Use of Fans" then some [Strategy.occupant_use_of_fans]
  else if selected_strategy = "Capture Internal Heat" then some [Strategy.capture_internal_heat]
  else if selected_strategy = "Passive Solar Heating" then some [Strategy.passive_solar_heating]
  else none

/- get_psy_chart_figure (lines 455-488).  none models the NameError
   raised when draw_polygons is set but no strategy branch assigned the
   strategies variable. -/
def get_psy_chart_figure (lib : Lib Color Coll MColl) (epw : EPWData Coll)
    (global_colorset : String) (selected_strategy : String)
    (load_data draw_polygons : Bool) (data : Option Coll) (switch : Bool) :
    Option (PsyFig Color Coll) :=
  let colors := get_colors lib.colorsets switch global_colorset
  let lb_lp : LegendParameters Color := ⟨colors, none, none⟩
  let lb_psy : PsyChart Color Coll := ⟨epw.dry_bulb_temperature, epw.relative_humidity, lb_lp⟩
  let strategies := psyStrategies selected_strategy
  let pmv : PolygonPMVRec Color Coll := ⟨lb_psy⟩
  if load_data then
    if draw_polygons then
      strategies.map (fun ss => ⟨lb_psy, PsyPlotCall.data_polygons data pmv ss epw.direct_normal_radiation⟩)
    else some ⟨lb_psy, PsyPlotCall.data_only data⟩
  else
    if draw_polygons then
      strategies.map (fun ss => ⟨lb_psy, PsyPlotCall.polygons pmv ss epw.direct_normal_radiation⟩)
    else some ⟨lb_psy, PsyPlotCall.plain⟩

/- Widget values read by the script, one field per widget. -/
structure Widgets where
  global_colorset_selector : String
  color_switch : Bool
  hourly_selected : String
  hourly_conditional_statement : String
  hourly_min : String
  hourly_max : String
  hourly_start_month : ℤ
  hourly_start_day : ℤ
  hourly_start_hour : ℤ
  hourly_end_month : ℤ
  hourly_end_day : ℤ
  hourly_end_hour : ℤ
  daily_data_selected : String
  diurnal_hourly_selected : String
  bar_chart_selection : List Bool
  bar_chart_data_type : String
  bar_chart_stack : Bool
  degree_days_heat_base : ℤ
  degree_days_cool_base : ℤ
  degree_days_stack : Bool
  windrose_start_month : ℤ
  windrose_end_month : ℤ
  windrose_start_day : ℤ
  windrose_end_day : ℤ
  windrose_start_hour : ℤ
  windrose_end_hour : ℤ
  psy_load_data : Bool
  psy_selected : String
  psy_draw_polygons : Bool
  psy_selected_strategy : String

/- The charts assembled by the script body. -/
structure Dashboard (Color Coll MColl : Type) where
  hourly_data_figure : HourlyFigureResult Color Coll
  hourly_line_chart_figure : LineChartFig Color Coll
  daily_chart_figure : BarChartFig Color Coll
  diurnal_average_chart_figure : DiurnalEpwFig Color Coll
  per_hour_line_chart_figure : DiurnalHourlyFig Color Coll
  bar_chart_figure : MonthlyChartFig Color MColl
  degree_days_figure : MonthlyChartFig Color MColl
  hourly_heat : Coll
  hourly_cool : Coll
  windrose_figure : WindroseFig Color Coll
  psy_chart_figure : PsyFig Color Coll

/- Chart assembly of the script body given the loaded EPW object: each
   chart call with the widget values the source passes; none models an
   uncaught exception (unknown dict key, IndexError, NameError). -/
def buildDashboard (lib : Lib Color Coll MColl) (global_epw : EPWData Coll)
    (w : Widgets) : Option (Dashboard Color Coll MColl) := do
  let fields := get_fields lib
  let hourlyField ← dictGet fields w.hourly_selected
  let hourly_data := global_epw.get_data_by_field hourlyField
  let hourly_fig := get_hourly_data_figure lib hourly_data
    w.global_colorset_selector w.hourly_conditional_statement
    w.hourly_min w.hourly_max
    w.hourly_start_month w.hourly_start_day w.hourly_start_hour
    w.hourly_end_month w.hourly_end_day w.hourly_end_hour w.color_switch
  let dailyField ← dictGet fields w.daily_data_selected
  let daily_data := global_epw.get_data_by_field dailyField
  let line_fig ← get_hourly_line_chart_figure lib daily_data w.color_switch
    w.global_colorset_selector w.daily_data_selected
  let daily_fig ← get_daily_chart_figure lib daily_data w.color_switch
    w.global_colorset_selector
  let diurnal_fig := get_diurnal_average_chart_figure lib global_epw
    w.global_colorset_selector w.color_switch
  let diurnalField ← dictGet fields w.diurnal_hourly_selected
  let diurnal_data := global_epw.get_data_by_field diurnalField
  let per_hour_fig ← get_hourly_diurnal_average_chart_figure lib diurnal_data
    w.color_switch w.global_colorset_selector
  let bar_fig ← get_bar_chart_figure lib fields global_epw
    w.bar_chart_selection w.bar_chart_data_type w.color_switch
    w.bar_chart_stack w.global_colorset_selector
  let dd := get_degree_days_figure lib global_epw.dry_bulb_temperature
    w.degree_days_heat_base w.degree_days_cool_base w.degree_days_stack
    w.color_switch w.global_colorset_selector
  let windrose_fig := get_windrose_figure lib global_epw
    w.windrose_start_month w.windrose_end_month w.windrose_start_day
    w.windrose_end_day w.windrose_start_hour w.windrose_end_hour
    global_epw w.global_colorset_selector w.color_switch
  let psy_data ← if w.psy_load_data then
      (dictGet fields w.psy_selected).map (fun n => some (global_epw.get_data_by_field n))
    else some none
  let psy_fig ← get_psy_chart_figure lib global_epw w.global_colorset_selector
    w.psy_selected_strategy w.psy_load_data w.psy_draw_polygons psy_data
    w.color_switch
  pure ⟨hourly_fig, line_fig, daily_fig, diurnal_fig, per_hour_fig, bar_fig,
        dd.1, dd.2.1, dd.2.2, windrose_fig, psy_fig⟩

/- Top level of the script (lines 77-78 then the tab bodies): the EPW
   file at the constant path epw_path is loaded once, before any widget
   is used, and the whole dashboard is built from that single object.
   The first component records the list of paths passed to the EPW
   loader. -/
def runScript (lib : Lib Color Coll MColl) (loader : String → EPWData Coll)
    (w : Widgets) : List String × Option (Dashboard Color Coll MColl) :=
  ([epw_path], buildDashboard lib (loader epw_path) w)

/- Concrete library instantiation over Unit, used to evaluate the
   embedding on closed inputs: the conditional filter always raises
   ValueError and float parsing always fails. -/
def ulib : Lib Unit Unit Unit :=
  ⟨fun _ => [], fun c _ => c, fun _ _ => CondResult.valueError, fun _ => none,
   fun _ => "t", fun _ => "t", id, fun _ => (), fun _ => (),
   fun _ c _ _ _ => c, fun c _ => c, fun _ => "f"⟩

/- Concrete library instantiation whose conditional filter succeeds and
   whose float parser accepts "0" and "1". -/
def oklib : Lib Unit Unit Unit :=
  ⟨fun _ => [], fun c _ => c, fun c _ => CondResult.ok c,
   fun s => if s = "0" then some 0 else if s = "1" then some 1 else none,
   fun _ => "t", fun _ => "t", id, fun _ => (), fun _ => (),
   fun _ c _ _ _ => c, fun c _ => c, fun _ => "f"⟩

/- Concrete EPW object over Unit. -/
def uepw : EPWData Unit :=
  ⟨fun _ => (), (), (), (), (), (), "Cardiff", "GBR"⟩

/- Concrete widget record with the default widget values. -/
def uWidgets : Widgets :=
  ⟨"Original", false, "a", "", "", "", 1, 1, 0, 12, 31, 23, "a", "a", [],
   "Monthly Average", false, 18, 23, false, 1, 12, 1, 31, 0, 23, false, "a",
   false, "All"⟩

/-- C5: for every colorset name c in the colorsets dictionary, get_colors
with the switch off returns colorsets[c] unchanged, with the switch on
returns its reversal, and reversing that reversal restores the original
order, so the color-reversal checkbox is an involution on the color
sequence. -/
theorem get_colors_reverse_involution (lib : Lib Color Coll MColl) (c : String)
    (hc : c ∈ colorsetNames) :
    get_colors lib.colorsets false c = lib.colorsets c ∧
    get_colors lib.colorsets true c = (lib.colorsets c).reverse ∧
    (get_colors lib.colorsets true c).reverse = lib.colorsets c :=
  ⟨rfl, rfl, by simp [get_colors]⟩

/-- Witness for C5 at the colorset name Original. -/
theorem get_colors_reverse_involution_witness :
    "Original" ∈ colorsetNames ∧
    (get_colors ulib.colorsets false "Original" = ulib.colorsets "Original" ∧
     get_colors ulib.colorsets true "Original" = (ulib.colorsets "Original").reverse ∧
     (get_colors ulib.colorsets true "Original").reverse = ulib.colorsets "Original") :=
  ⟨by decide, get_colors_reverse_involution ulib "Original" (by decide)⟩

/-- C9: when draw_polygons is false, the figure returned by
get_psy_chart_figure does not depend on the selected strategy: for any
two strategy strings and otherwise equal arguments the results are
equal, since the strategies list is only passed to the plot call when
draw_polygons is true. -/
theorem psy_figure_independent_of_strategy_without_polygons
    (lib : Lib Color Coll MColl) (epw : EPWData Coll) (gcs s₁ s₂ : String)
    (load_data : Bool) (data : Option Coll) (switch : Bool) :
    get_psy_chart_figure lib epw gcs s₁ load_data false data switch =
      get_psy_chart_figure lib epw gcs s₂ load_data false data switch := by
  cases load_data <;> rfl

/-- C8: get_degree_days_figure computes hourly heating degree time from
the data series and the heating base, hourly cooling degree time from
the cooling base, converts both from degC-hours to degC-days, charts the
monthly totals with cooling first and heating second, and returns the
triple (figure, hourly_heat, hourly_cool) in that order; at the call
site the data series is the dry-bulb temperature of the EPW. -/
theorem degree_days_figure_structure (lib : Lib Color Coll MColl)
    (epw : EPWData Coll) (heatbase coolbase : ℤ) (stack switch : Bool)
    (gcs : String) :
    get_degree_days_figure lib epw.dry_bulb_temperature heatbase coolbase stack switch gcs =
      (⟨[lib.total_monthly (lib.convert_to_unit
            (lib.compute_function_aligned DegreeFn.cooling_degree_time
              epw.dry_bulb_temperature coolbase DegreeDataType.coolingDegreeTime
              "degC-hours") "degC-days"),
         lib.total_monthly (lib.convert_to_unit
            (lib.compute_function_aligned DegreeFn.heating_degree_time
              epw.dry_bulb_temperature heatbase DegreeDataType.heatingDegreeTime
              "degC-hours") "degC-days")],
        ⟨get_colors lib.colorsets switch gcs, none, none⟩, stack⟩,
       lib.convert_to_unit
         (lib.compute_function_aligned DegreeFn.heating_degree_time
           epw.dry_bulb_temperature heatbase DegreeDataType.heatingDegreeTime
           "degC-hours") "degC-days",
       lib.convert_to_unit
         (lib.compute_function_aligned DegreeFn.cooling_degree_time
           epw.dry_bulb_temperature coolbase DegreeDataType.coolingDegreeTime
           "degC-hours") "degC-days") := rfl

/-- C1 (code-bug evaluation): with an unparseable Min entry the hourly
tab value is the plain error string, but the unconditional update_layout
call of line 212 fails on a string (AttributeError), so the string is
never rendered in place of a chart. -/
theorem hourly_tab_error_string_not_rendered :
    get_hourly_data_figure ulib () "Original" "" "abc" "" 1 1 0 12 31 23 false =
      HourlyFigureResult.errorString "Invalid minimum value" ∧
    hourly_figure_update_layout
      (get_hourly_data_figure ulib () "Original" "" "abc" "" 1 1 0 12 31 23 false) = none :=
  ⟨rfl, rfl⟩

/-- C3: for a non-empty conditional statement that evaluates without
error, the analysis-period widgets have no effect on the result of
get_hourly_data_figure, and any plotted figure's data collection is the
full-year collection filtered by the conditional statement alone: the
conditional filter is applied to the original unfiltered collection and
replaces the period-filtered one. -/
theorem conditional_filter_ignores_analysis_period
    (lib : Lib Color Coll MColl) (data c : Coll) (gcs cs mn mx : String)
    (switch : Bool) (h1 : cs ≠ "")
    (h2 : lib.filter_by_conditional_statement data cs = CondResult.ok c) :
    (∀ sm sd sh em ed eh sm₂ sd₂ sh₂ em₂ ed₂ eh₂ : ℤ,
        get_hourly_data_figure lib data gcs cs mn mx sm sd sh em ed eh switch =
          get_hourly_data_figure lib data gcs cs mn mx sm₂ sd₂ sh₂ em₂ ed₂ eh₂ switch) ∧
    (∀ (sm sd sh em ed eh : ℤ) (fig : HourlyPlotFig Color Coll),
        get_hourly_data_figure lib data gcs cs mn mx sm sd sh em ed eh switch =
          HourlyFigureResult.figure fig →
        fig.data_collection = c) := by
  constructor
  · intro sm sd sh em ed eh sm₂ sd₂ sh₂ em₂ ed₂ eh₂
    simp only [get_hourly_data_figure, if_neg h1, h2]
  · intro sm sd sh em ed eh fig h
    by_cases hmn : mn = ""
    · by_cases hmx : mx = ""
      · simp [get_hourly_data_figure, h1, h2, hmn, hmx] at h
        subst h; rfl
      · rcases hpx : lib.pyFloat mx with _ | v
        · simp [get_hourly_data_figure, h1, h2, hmn, hmx, hpx] at h
        · simp [get_hourly_data_figure, h1, h2, hmn, hmx, hpx] at h
          subst h; rfl
    · rcases hpm : lib.pyFloat mn with _ | u
      · simp [get_hourly_data_figure, h1, h2, hmn, hpm] at h
      · by_cases hmx : mx = ""
        · simp [get_hourly_data_figure, h1, h2, hmn, hpm, hmx] at h
          subst h; rfl
        · rcases hpx : lib.pyFloat mx with _ | v
          · simp [get_hourly_data_figure, h1, h2, hmn, hpm, hmx, hpx] at h
          · simp [get_hourly_data_figure, h1, h2, hmn, hpm, hmx, hpx] at h
            subst h; rfl

/-- Witness for C3: with a succeeding conditional filter, two different
analysis periods give the same figure. -/
theorem conditional_filter_ignores_analysis_period_witness :
    get_hourly_data_figure oklib () "Original" "x" "" "" 1 1 0 12 31 23 false =
      get_hourly_data_figure oklib () "Original" "x" "" "" 6 15 8 7 20 18 false :=
  (conditional_filter_ignores_analysis_period oklib () () "Original" "x" "" ""
    false (by decide) rfl).1 1 1 0 12 31 23 6 15 8 7 20 18

/-- C4: a Min or Max entry that parses to the float 0 is parsed without
error but never assigned to the legend parameters (the applied-bound
branch tests the parsed float for truthiness), while every non-zero
parseable bound is applied as the legend minimum (resp. maximum). -/
theorem zero_bound_ignored_nonzero_applied
    (lib : Lib Color Coll MColl) (data : Coll) (gcs : String) (switch : Bool)
    (sm sd sh em ed eh : ℤ) (mn mx : String) (u v : ℚ)
    (hmn : mn ≠ "") (hmx : mx ≠ "")
    (hpu : lib.pyFloat mn = some u) (hpv : lib.pyFloat mx = some v) :
    get_hourly_data_figure lib data gcs "" mn mx sm sd sh em ed eh switch =
      HourlyFigureResult.figure
        ⟨lib.filter_by_analysis_period data ⟨sm, sd, sh, em, ed, eh⟩,
         ⟨get_colors lib.colorsets switch gcs,
          if u = 0 then none else some u,
          if v = 0 then none else some v⟩,
         lib.data_type_str (lib.filter_by_analysis_period data ⟨sm, sd, sh, em, ed, eh⟩),
         true⟩ := by
  simp [get_hourly_data_figure, hmn, hmx, hpu, hpv]

/-- Witness for C4: a typed Min of 0 is dropped while a typed Max of 1 is
applied. -/
theorem zero_bound_ignored_nonzero_applied_witness :
    get_hourly_data_figure oklib () "Original" "" "0" "1" 1 1 0 12 31 23 false =
      HourlyFigureResult.figure ⟨(), ⟨[], none, some 1⟩, "t", true⟩ :=
  zero_bound_ignored_nonzero_applied oklib () "Original" false 1 1 0 12 31 23
    "0" "1" 0 1 (by decide) (by decide) rfl rfl

/-- C2: get_hourly_data_figure maps each invalid input to its fixed
error string, in source order, so an earlier failure masks later ones:
AssertionError from the conditional filter, then ValueError from it,
then an unparseable non-empty Min, then an unparseable non-empty Max. -/
theorem get_hourly_data_figure_error_string_order
    (lib : Lib Color Coll MColl) (data : Coll) (gcs cs : String) (switch : Bool)
    (sm sd sh em ed eh : ℤ) :
    (∀ mn mx : String, cs ≠ "" →
        lib.filter_by_conditional_statement data cs = CondResult.assertionError →
        get_hourly_data_figure lib data gcs cs mn mx sm sd sh em ed eh switch =
          HourlyFigureResult.errorString "No values found for that conditonal statement") ∧
    (∀ mn mx : String, cs ≠ "" →
        lib.filter_by_conditional_statement data cs = CondResult.valueError →
        get_hourly_data_figure lib data gcs cs mn mx sm sd sh em ed eh switch =
          HourlyFigureResult.errorString "Invalid conditonal statement") ∧
    (∀ mn mx : String,
        (cs = "" ∨ ∃ c, lib.filter_by_conditional_statement data cs = CondResult.ok c) →
        mn ≠ "" → lib.pyFloat mn = none →
        get_hourly_data_figure lib data gcs cs mn mx sm sd sh em ed eh switch =
          HourlyFigureResult.errorString "Invalid minimum value") ∧
    (∀ mn mx : String,
        (cs = "" ∨ ∃ c, lib.filter_by_conditional_statement data cs = CondResult.ok c) →
        (mn = "" ∨ ∃ v, lib.pyFloat mn = some v) →
        mx ≠ "" → lib.pyFloat mx = none →
        get_hourly_data_figure lib data gcs cs mn mx sm sd sh em ed eh switch =
          HourlyFigureResult.errorString "Invalid maximum value") := by
  refine ⟨?_, ?_, ?_, ?_⟩
  · intro mn mx h1 h2
    simp [get_hourly_data_figure, h1, h2]
  · intro mn mx h1 h2
    simp [get_hourly_data_figure, h1, h2]
  · intro mn mx hcs hmn hpm
    by_cases hcs0 : cs = ""
    · simp [get_hourly_data_figure, hcs0, hmn, hpm]
    · rcases hcs with hcs | ⟨c, hc⟩
      · exact absurd hcs hcs0
      · simp [get_hourly_data_figure, hcs0, hc, hmn, hpm]
  · intro mn mx hcs hmnok hmx hpx
    by_cases hcs0 : cs = ""
    · by_cases hmn0 : mn = ""
      · simp [get_hourly_data_figure, hcs0, hmn0, hmx, hpx]
      · rcases hmnok with hmn0x | ⟨v, hv⟩
        · exact absurd hmn0x hmn0
        · simp [get_hourly_data_figure, hcs0, hmn0, hv, hmx, hpx]
    · rcases hcs with hcs | ⟨c, hc⟩
      · exact absurd hcs hcs0
      · by_cases hmn0 : mn = ""
        · simp [get_hourly_data_figure, hcs0, hc, hmn0, hmx, hpx]
        · rcases hmnok with hmn0x | ⟨v, hv⟩
          · exact absurd hmn0x hmn0
          · simp [get_hourly_data_figure, hcs0, hc, hmn0, hv, hmx, hpx]

/-- Witness for C2: a ValueError from the conditional filter yields the
fixed string, masking the Min and Max checks. -/
theorem get_hourly_data_figure_error_string_order_witness :
    get_hourly_data_figure ulib () "Original" "bad" "zz" "zz" 1 1 0 12 31 23 false =
      HourlyFigureResult.errorString "Invalid conditonal statement" :=
  (get_hourly_data_figure_error_string_order ulib () "Original" "bad" false
    1 1 0 12 31 23).2.1 "zz" "zz" (by decide) rfl

/- Python dict lookup agrees with positional access when the keys are
   distinct: looking up the key of an entry returns that entry's value. -/
theorem dictGet_of_mem_nodup (d : List (String × ℕ)) (p : String × ℕ)
    (hmem : p ∈ d) (hnd : (d.map Prod.fst).Nodup) : dictGet d p.1 = some p.2 := by
  induction d with
  | nil => cases hmem
  | cons q rest ih =>
    rcases List.mem_cons.mp hmem with h | h
    · subst h
      simp [dictGet, List.find?_cons_of_pos]
    · have hq : q.1 ∉ rest.map Prod.fst := (List.nodup_cons.mp hnd).1
      have hne : q.1 ≠ p.1 := fun e => hq (e ▸ List.mem_map_of_mem Prod.fst h)
      have hrec := ih h (List.nodup_cons.mp hnd).2
      simp only [dictGet] at hrec ⊢
      rw [List.find?_cons_of_neg rest (by simp [hne])]
      exact hrec

/- One step of the get_bar_chart_figure loop. -/
theorem bar_chart_data_cons (lib : Lib Color Coll MColl)
    (fields : List (String × ℕ)) (epw : EPWData Coll) (dt : String)
    (i : ℕ) (item : Bool) (rest : List (ℕ × Bool)) :
    bar_chart_data lib fields epw dt ((i, item) :: rest) =
      (if item then
        match (fields.map Prod.fst)[i]? with
        | none => none
        | some key =>
          match dictGet fields key with
          | none => none
          | some fnum =>
            if dt = "Monthly Average" then
              (bar_chart_data lib fields epw dt rest).map
                (lib.average_monthly (epw.get_data_by_field fnum) :: ·)
            else if dt = "Monthly Total" then
              (bar_chart_data lib fields epw dt rest).map
                (lib.total_monthly (epw.get_data_by_field fnum) :: ·)
            else bar_chart_data lib fields epw dt rest
      else bar_chart_data lib fields epw dt rest) := rfl

/- Characterization of the get_bar_chart_figure loop on an enumerated
   selection starting at offset n. -/
theorem bar_chart_data_enumFrom (lib : Lib Color Coll MColl)
    (fields : List (String × ℕ)) (epw : EPWData Coll) (dt : String)
    (hnd : (fields.map Prod.fst).Nodup)
    (hdt : dt = "Monthly Average" ∨ dt = "Monthly Total") :
    ∀ (sel : List Bool) (n : ℕ), n + sel.length ≤ fields.length →
      bar_chart_data lib fields epw dt (List.enumFrom n sel) =
        some ((sel.zip (fields.drop n)).filterMap
          (fun p => if p.1 then
              some ((if dt = "Monthly Average" then lib.average_monthly
                     else lib.total_monthly) (epw.get_data_by_field p.2.2))
            else none)) := by
  intro sel
  induction sel with
  | nil => intro n _; rfl
  | cons b rest ih =>
    intro n hlen
    have hn : n < fields.length := by
      simp only [List.length_cons] at hlen; omega
    have hkey : (fields.map Prod.fst)[n]? = some fields[n].1 := by
      simp [List.getElem?_eq_getElem (by simpa using hn : n < (fields.map Prod.fst).length)]
    have hdict : dictGet fields fields[n].1 = some fields[n].2 :=
      dictGet_of_mem_nodup fields fields[n] (List.getElem_mem hn) hnd
    have hdrop : fields.drop n = fields[n] :: fields.drop (n + 1) :=
      List.drop_eq_getElem_cons hn
    have ihs := ih (n + 1) (by simp only [List.length_cons] at hlen; omega)
    have hstep : List.enumFrom n (b :: rest) = (n, b) :: List.enumFrom (n + 1) rest := rfl
    rw [hstep, bar_chart_data_cons, hkey]
    rcases hdt with hdt | hdt <;> subst hdt
    · cases b
      · rw [if_neg Bool.false_ne_true, ihs, hdrop]; rfl
      · rw [if_pos rfl]
        dsimp only
        rw [hdict]
        dsimp only
        rw [if_pos rfl, ihs, hdrop]; rfl
    · cases b
      · rw [if_neg Bool.false_ne_true, ihs, hdrop]; rfl
      · rw [if_pos rfl]
        dsimp only
        rw [hdict]
        dsimp only
        rw [if_neg (by decide), if_pos rfl, ihs, hdrop]; rfl

/-- C7: for every boolean selection list (one entry per checkbox, at most
one per fields entry), get_bar_chart_figure assembles the monthly chart
from exactly the variables whose checkbox is true, in the order of the
fields dictionary, transforming each with average_monthly for the
Monthly Average data type and with total_monthly for Monthly Total, and
forwards the stack flag unchanged to the MonthlyChart constructor. -/
theorem bar_chart_selection_order_transform (lib : Lib Color Coll MColl)
    (fields : List (String × ℕ)) (epw : EPWData Coll) (selection : List Bool)
    (data_type : String) (switch stack : Bool) (gcs : String)
    (hnd : (fields.map Prod.fst).Nodup)
    (hlen : selection.length ≤ fields.length)
    (hdt : data_type = "Monthly Average" ∨ data_type = "Monthly Total") :
    get_bar_chart_figure lib fields epw selection data_type switch stack gcs =
      some ⟨(selection.zip fields).filterMap
              (fun p => if p.1 then
                  some ((if data_type = "Monthly Average" then lib.average_monthly
                         else lib.total_monthly) (epw.get_data_by_field p.2.2))
                else none),
            ⟨get_colors lib.colorsets switch gcs, none, none⟩, stack⟩ := by
  have h := bar_chart_data_enumFrom lib fields epw data_type hnd hdt selection 0
    (by simpa using hlen)
  simp only [get_bar_chart_figure]
  rw [show selection.enum = List.enumFrom 0 selection from rfl, h]
  simp

/-- Witness for C7: of two checkboxes only the first is ticked, so the
chart holds the monthly average of the first variable alone. -/
theorem bar_chart_selection_order_transform_witness :
    get_bar_chart_figure ulib [("a", 6), ("b", 7)] uepw [true, false]
        "Monthly Average" false false "Original" =
      some ⟨[()], ⟨[], none, none⟩, false⟩ :=
  bar_chart_selection_order_transform ulib [("a", 6), ("b", 7)] uepw
    [true, false] "Monthly Average" false false "Original"
    (by decide) (by decide) (Or.inl rfl)

/-- C6: each chart-building function of the script is deterministic: two
runs on equal arguments return equal figures.  The embedding is a pure
function of the widget values, the library behaviour and the loaded EPW
object, which are all quantified here. -/
theorem chart_functions_deterministic (lib : Lib Color Coll MColl) :
    (∀ (d₁ d₂ : Coll) (g₁ g₂ c₁ c₂ mn₁ mn₂ mx₁ mx₂ : String)
       (sm₁ sm₂ sd₁ sd₂ sh₁ sh₂ em₁ em₂ ed₁ ed₂ eh₁ eh₂ : ℤ) (sw₁ sw₂ : Bool),
        d₁ = d₂ → g₁ = g₂ → c₁ = c₂ → mn₁ = mn₂ → mx₁ = mx₂ →
        sm₁ = sm₂ → sd₁ = sd₂ → sh₁ = sh₂ → em₁ = em₂ → ed₁ = ed₂ → eh₁ = eh₂ →
        sw₁ = sw₂ →
        get_hourly_data_figure lib d₁ g₁ c₁ mn₁ mx₁ sm₁ sd₁ sh₁ em₁ ed₁ eh₁ sw₁ =
          get_hourly_data_figure lib d₂ g₂ c₂ mn₂ mx₂ sm₂ sd₂ sh₂ em₂ ed₂ eh₂ sw₂) ∧
    (∀ (d₁ d₂ : Coll) (sw₁ sw₂ : Bool) (g₁ g₂ sel₁ sel₂ : String),
        d₁ = d₂ → sw₁ = sw₂ → g₁ = g₂ → sel₁ = sel₂ →
        get_hourly_line_chart_figure lib d₁ sw₁ g₁ sel₁ =
          get_hourly_line_chart_figure lib d₂ sw₂ g₂ sel₂) ∧
    (∀ (d₁ d₂ : Coll) (sw₁ sw₂ : Bool) (g₁ g₂ : String),
        d₁ = d₂ → sw₁ = sw₂ → g₁ = g₂ →
        get_daily_chart_figure lib d₁ sw₁ g₁ = get_daily_chart_figure lib d₂ sw₂ g₂) ∧
    (∀ (f₁ f₂ : List (String × ℕ)) (e₁ e₂ : EPWData Coll) (s₁ s₂ : List Bool)
       (dt₁ dt₂ : String) (sw₁ sw₂ st₁ st₂ : Bool) (g₁ g₂ : String),
        f₁ = f₂ → e₁ = e₂ → s₁ = s₂ → dt₁ = dt₂ → sw₁ = sw₂ → st₁ = st₂ → g₁ = g₂ →
        get_bar_chart_figure lib f₁ e₁ s₁ dt₁ sw₁ st₁ g₁ =
          get_bar_chart_figure lib f₂ e₂ s₂ dt₂ sw₂ st₂ g₂) ∧
    (∀ (d₁ d₂ : Coll) (hb₁ hb₂ cb₁ cb₂ : ℤ) (st₁ st₂ sw₁ sw₂ : Bool) (g₁ g₂ : String),
        d₁ = d₂ → hb₁ = hb₂ → cb₁ = cb₂ → st₁ = st₂ → sw₁ = sw₂ → g₁ = g₂ →
        get_degree_days_figure lib d₁ hb₁ cb₁ st₁ sw₁ g₁ =
          get_degree_days_figure lib d₂ hb₂ cb₂ st₂ sw₂ g₂) ∧
    (∀ (ge₁ ge₂ e₁ e₂ : EPWData Coll)
       (sm₁ sm₂ em₁ em₂ sd₁ sd₂ ed₁ ed₂ sh₁ sh₂ eh₁ eh₂ : ℤ)
       (g₁ g₂ : String) (sw₁ sw₂ : Bool),
        ge₁ = ge₂ → sm₁ = sm₂ → em₁ = em₂ → sd₁ = sd₂ → ed₁ = ed₂ → sh₁ = sh₂ →
        eh₁ = eh₂ → e₁ = e₂ → g₁ = g₂ → sw₁ = sw₂ →
        get_windrose_figure lib ge₁ sm₁ em₁ sd₁ ed₁ sh₁ eh₁ e₁ g₁ sw₁ =
          get_windrose_figure lib ge₂ sm₂ em₂ sd₂ ed₂ sh₂ eh₂ e₂ g₂ sw₂) ∧
    (∀ (e₁ e₂ : EPWData Coll) (g₁ g₂ s₁ s₂ : String) (ld₁ ld₂ dp₁ dp₂ : Bool)
       (dat₁ dat₂ : Option Coll) (sw₁ sw₂ : Bool),
        e₁ = e₂ → g₁ = g₂ → s₁ = s₂ → ld₁ = ld₂ → dp₁ = dp₂ → dat₁ = dat₂ → sw₁ = sw₂ →
        get_psy_chart_figure lib e₁ g₁ s₁ ld₁ dp₁ dat₁ sw₁ =
          get_psy_chart_figure lib e₂ g₂ s₂ ld₂ dp₂ dat₂ sw₂) := by
  refine ⟨?_, ?_, ?_, ?_, ?_, ?_, ?_⟩ <;> (intros; subst_vars; rfl)

/-- Witness for C6: each chart function replayed on equal concrete
arguments gives an equal figure. -/
theorem chart_functions_deterministic_witness :
    (get_hourly_data_figure ulib () "a" "" "" "" 1 1 0 12 31 23 false =
      get_hourly_data_figure ulib () "a" "" "" "" 1 1 0 12 31 23 false) ∧
    (get_hourly_line_chart_figure ulib () false "a" "s" =
      get_hourly_line_chart_figure ulib () false "a" "s") ∧
    (get_daily_chart_figure ulib () false "a" = get_daily_chart_figure ulib () false "a") ∧
    (get_bar_chart_figure ulib [] uepw [] "Monthly Average" false false "a" =
      get_bar_chart_figure ulib [] uepw [] "Monthly Average" false false "a") ∧
    (get_degree_days_figure ulib () 18 23 false false "a" =
      get_degree_days_figure ulib () 18 23 false false "a") ∧
    (get_windrose_figure ulib uepw 1 12 1 31 0 23 uepw "a" false =
      get_windrose_figure ulib uepw 1 12 1 31 0 23 uepw "a" false) ∧
    (get_psy_chart_figure ulib uepw "a" "All" false false none false =
      get_psy_chart_figure ulib uepw "a" "All" false false none false) :=
  ⟨(chart_functions_deterministic ulib).1 () () "a" "a" "" "" "" "" "" ""
      1 1 1 1 0 0 12 12 31 31 23 23 false false
      rfl rfl rfl rfl rfl rfl rfl rfl rfl rfl rfl rfl,
   (chart_functions_deterministic ulib).2.1 () () false false "a" "a" "s" "s"
      rfl rfl rfl rfl,
   (chart_functions_deterministic ulib).2.2.1 () () false false "a" "a" rfl rfl rfl,
   (chart_functions_deterministic ulib).2.2.2.1 [] [] uepw uepw [] []
      "Monthly Average" "Monthly Average" false false false false "a" "a"
      rfl rfl rfl rfl rfl rfl rfl,
   (chart_functions_deterministic ulib).2.2.2.2.1 () () 18 18 23 23
      false false false false "a" "a" rfl rfl rfl rfl rfl rfl,
   (chart_functions_deterministic ulib).2.2.2.2.2.1 uepw uepw uepw uepw
      1 1 12 12 1 1 31 31 0 0 23 23 "a" "a" false false
      rfl rfl rfl rfl rfl rfl rfl rfl rfl rfl,
   (chart_functions_deterministic ulib).2.2.2.2.2.2 uepw uepw "a" "a" "All" "All"
      false false false false none none false false rfl rfl rfl rfl rfl rfl rfl⟩

/-- C10: the script loads exactly one EPW file, at the constant path,
before any widget value is consumed; the loaded path does not depend on
any input, and the whole dashboard depends on the loader only through
its value at that single path, so every chart derives from the one EPW
object. -/
theorem single_fixed_epw_source :
    epw_path = "EPW File/GBR_WAL_Cardiff.Wea.Ctr.037170_TMYx.epw" ∧
    (∀ (A B M : Type) (lib : Lib A B M) (loader : String → EPWData B) (w : Widgets),
        (runScript lib loader w).1 = [epw_path]) ∧
    (∀ (A B M : Type) (lib : Lib A B M) (loader₁ loader₂ : String → EPWData B)
       (w : Widgets),
        loader₁ epw_path = loader₂ epw_path →
        runScript lib loader₁ w = runScript lib loader₂ w) :=
  ⟨rfl, fun _ _ _ _ _ _ => rfl,
   fun _ _ _ _ _ _ _ h => by simp only [runScript, h]⟩

/-- Witness for C10: two loaders that agree on the fixed path produce
identical script results. -/
theorem single_fixed_epw_source_witness :
    runScript ulib (fun _ => uepw) uWidgets = runScript ulib (fun _ => uepw) uWidgets :=
  single_fixed_epw_source.2.2 Unit Unit Unit ulib (fun _ => uepw) (fun _ => uepw)
    uWidgets rfl

end CardiffWeather
